import Mathlib

/-!
Shallow embedding of the `agent-eyes` library core: typed errors
(`src/errors.js`), the SSRF navigation guard (`src/security.js`), the
`AgentEyes` session actions with their metrics and ring buffers
(`src/agent-eyes.js`), the `EyesRunner` retry/backoff step orchestrator
(`src/runner.js`), and the artifact helpers `serializeDOM` and
`diffDataURLs` (`src/artifacts.js`).  External effects (the Playwright
engine, URL parsing, image decoding and rasterization) enter the model as
explicit oracle arguments; everything the library itself computes is
translated directly from the JavaScript.
-/

/-- Stable error codes from `src/errors.js` (`ErrorCode` typedef). -/
inductive ErrCode where
  | elementNotFound
  | navigationTimeout
  | scriptError
  | securityBlocked
  | rateLimit
  | badInput
  | internalCode
deriving DecidableEq, Repr

/-- The `opts.cause` attached by an `EyesError` constructor: either another
typed error (kept as its code) or an opaque engine/platform error. -/
inductive Cause where
  | typed (c : ErrCode)
  | engine
deriving DecidableEq, Repr

/-- `EyesError` constructor helper for the hint: a falsy (empty) hint string
becomes `undefined` (`opts.hint || undefined` in `src/errors.js`). -/
def mkHint (h : String) : Option String :=
  if h == "" then none else some h

/-- `EyesError` from `src/errors.js`: a stable code, a message, an optional
hint string and an optional attached cause. -/
structure EyesError where
  code : ErrCode
  message : String
  hintStr : Option String := none
  cause : Option Cause := none
deriving DecidableEq, Repr

def badInputErr (msg : String) : EyesError :=
  { code := .badInput, message := msg }

def securityBlockedErr (msg : String) : EyesError :=
  { code := .securityBlocked, message := msg }

def internalErr (msg : String) : EyesError :=
  { code := .internalCode, message := msg }

/-- `toEyesError` from `src/errors.js`: an `EyesError` passes through
unchanged; a foreign (engine) error is wrapped as `Internal`, preserving its
message (falling back to `Unexpected error`) and attaching it as cause. -/
def toEyesError (err : Sum EyesError String) : EyesError :=
  match err with
  | .inl e => e
  | .inr message =>
    { code := .internalCode,
      message := if message == "" then "Unexpected error" else message,
      cause := some .engine }

/-! ## NavigationGuard (`src/security.js`) -/

/-- The result of the host platform parsing a URL string (WHATWG `new URL`):
the scheme with trailing colon, the hostname (IPv6 hosts keep their square
brackets), and the canonical serialization `toString()`. -/
structure ParsedURL where
  protocol : String
  hostname : String
  href : String
deriving DecidableEq, Repr

/-- The `172.(1[6-9]|2\d|3[0-1]).` alternatives of the RFC1918 regex in
`PRIVATE_CIDRS`, expanded to the sixteen literal second octets. -/
def private172Blocks : List String :=
  ["172.16.", "172.17.", "172.18.", "172.19.", "172.20.", "172.21.",
   "172.22.", "172.23.", "172.24.", "172.25.", "172.26.", "172.27.",
   "172.28.", "172.29.", "172.30.", "172.31."]

/-- ASCII lowercasing of one character, as performed by `toLowerCase()` and
by the `i` regex flag on the ASCII hostnames and patterns involved here. -/
def lowerChar (c : Char) : Char :=
  if 65 ≤ c.toNat && c.toNat ≤ 90 then Char.ofNat (c.toNat + 32) else c

/-- `String.toLowerCase()` over the character sequence. -/
def lowerString (s : String) : String :=
  ⟨s.data.map lowerChar⟩

/-- Bracket stripping in `isPrivateHostname`: `replace(/^\[/, '')` then
`replace(/\]$/, '')` — drop one leading `[` and one trailing `]`. -/
def stripBrackets (hostname : List Char) : List Char :=
  let a := if hostname.head? == some '[' then hostname.drop 1 else hostname
  if a.getLast? == some ']' then a.dropLast else a

/-- `isPrivateHostname` from `src/security.js`: strip IPv6 brackets, then
test the hostname against each pattern of `PRIVATE_CIDRS` in turn.  Each
anchored regex is translated to the equivalent test on the character
sequence (`^pat` = the pattern is a leading subsequence; `^pat$` = equality;
flag `i` = compare after ASCII lowercasing). -/
def isPrivateHostname (hostname : String) : Bool :=
  let hn := stripBrackets hostname.data
  let low := hn.map lowerChar
  "10.".data.isPrefixOf hn ||
  "127.".data.isPrefixOf hn ||
  "169.254.".data.isPrefixOf hn ||
  private172Blocks.any (fun p => p.data.isPrefixOf hn) ||
  "192.168.".data.isPrefixOf hn ||
  (hn == "::1".data || hn == "[::1".data || hn == "::1]".data || hn == "[::1]".data) ||
  "fe80:".data.isPrefixOf low ||
  "fc00:".data.isPrefixOf low ||
  "fd00:".data.isPrefixOf low ||
  low == "localhost".data

/-- Guard policy consumed by `guardNavigation`: the optional allowlist
regex is modelled as the predicate its `test` method computes. -/
structure GuardOptions where
  allowNavigationTo : Option (String → Bool) := none
  blockPrivateIPs : Option Bool := none

/-- `ensureValidUrl` from `src/security.js`: `new URL(url)` succeeding is
modelled as the parse oracle returning `some`; a parse failure raises
`BadInput`. -/
def ensureValidUrl (rawUrl : String) (parsed : Option ParsedURL) :
    Except EyesError ParsedURL :=
  match parsed with
  | some u => .ok u
  | none => .error (badInputErr ("Invalid URL: " ++ rawUrl))

/-- `guardNavigation` from `src/security.js`: parse, require an `http` or
`https` scheme, apply the optional allowlist to the canonical URL, and
unless `blockPrivateIPs` is exactly `false` reject private hostnames.
Returns the canonical URL string on success. -/
def guardNavigation (rawUrl : String) (parsed : Option ParsedURL)
    (options : GuardOptions) : Except EyesError String :=
  match ensureValidUrl rawUrl parsed with
  | .error e => .error e
  | .ok u =>
  if !(u.protocol == "http:" || u.protocol == "https:") then
    .error (securityBlockedErr ("Blocked non-HTTP(S) scheme: " ++ u.protocol))
  else if (match options.allowNavigationTo with
           | some test => !test u.href
           | none => false) then
    .error (securityBlockedErr ("URL not allowed by allowlist: " ++ u.href))
  else if options.blockPrivateIPs != some false && isPrivateHostname u.hostname then
    .error (securityBlockedErr ("Blocked private/loopback host: " ++ u.hostname))
  else
    .ok u.href

/-- Spec side, for comparison with `isPrivateHostname`: membership of an
IPv6 address in the link-local block `fe80::/10` is decided by the top ten
bits of the first 16-bit group, i.e. the group divided by 2^6 equals
`0xfe80 / 2^6 = 1018`. -/
def specLinkLocalGroup (g : Nat) : Bool :=
  g / 64 == 0xfe80 / 64

/-- Spec side, for comparison with `isPrivateHostname`: membership of an
IPv6 address in the unique-local block `fc00::/7` is decided by the top
seven bits of the first 16-bit group. -/
def specUniqueLocalGroup (g : Nat) : Bool :=
  g / 512 == 0xfc00 / 512

/-! ## Ring buffers (`AgentEyes._pushRing`) -/

/-- `_pushRing` from `src/agent-eyes.js`: `arr.push(item)` then
`if (arr.length > max) arr.splice(0, arr.length - max)` — append and keep
only the last `max` entries. -/
def pushRing (arr : List α) (item : α) (max : Nat) : List α :=
  let a := arr ++ [item]
  if max < a.length then a.drop (a.length - max) else a

/-! ## ActionSession state (`src/agent-eyes.js`) -/

/-- The metrics accumulator `this._metrics` of `AgentEyes`. -/
structure Metrics where
  actions : Nat := 0
  totalDurationMs : Nat := 0
  errors : Nat := 0
deriving DecidableEq, Repr

/-- One console record as built in the `page.on('console')` handler. -/
structure ConsoleRec where
  type : String
  text : String
  ts : Nat
deriving DecidableEq, Repr

/-- One network record as built in the `requestfinished` / `requestfailed`
handlers. -/
structure NetworkRec where
  url : String
  method : String
  status : Nat
  ts : Nat
deriving DecidableEq, Repr

/-- The mutable state of one `AgentEyes` session: nullable engine handles
(`browser`, `context`, `page`, `_frameInterval` modelled as presence flags),
the two ring buffers and the metrics accumulator. -/
structure EyesState where
  browser : Bool := false
  context : Bool := false
  page : Bool := false
  frameInterval : Bool := false
  consoleRing : List ConsoleRec := []
  networkRing : List NetworkRec := []
  metrics : Metrics := {}
deriving DecidableEq, Repr

namespace AgentEyes

/-- The `page.on('console')` handler: push the record onto the console ring
with capacity 500. -/
def onConsole (s : EyesState) (rec : ConsoleRec) : EyesState :=
  { s with consoleRing := pushRing s.consoleRing rec 500 }

/-- The `page.on('requestfinished')` handler once the response resolves:
push `{url, method, status, ts}` onto the network ring with capacity 1000. -/
def onRequestFinished (s : EyesState) (rec : NetworkRec) : EyesState :=
  { s with networkRing := pushRing s.networkRing rec 1000 }

/-- The `page.on('requestfailed')` handler: like `onRequestFinished` but the
status is fixed to 0. -/
def onRequestFailed (s : EyesState) (url method : String) (ts : Nat) : EyesState :=
  { s with networkRing := pushRing s.networkRing { url, method, status := 0, ts } 1000 }

/-- `AgentEyes.close`: clear the frame interval, close page, context and
browser (each close is wrapped in `.catch(() => {})`, so the whole method
never throws and is modelled as a total function), then null the handles.
Buffers and metrics are retained. -/
def close (s : EyesState) : EyesState :=
  { s with frameInterval := false, browser := false, context := false, page := false }

/-- `AgentEyes._requirePage`: the `InternalError` thrown when `this.page`
is null. -/
def notOpenedErr : EyesError := internalErr "Eyes not opened"

/-- `AgentEyes._afterAction`: one successful action adds one to the action
count and its duration to the total. -/
def afterAction (s : EyesState) (durationMs : Nat) : EyesState :=
  { s with metrics :=
      { s.metrics with
        actions := s.metrics.actions + 1,
        totalDurationMs := s.metrics.totalDurationMs + durationMs } }

/-- `this._metrics.errors++` as performed in each action's catch block. -/
def bumpErrors (s : EyesState) : EyesState :=
  { s with metrics := { s.metrics with errors := s.metrics.errors + 1 } }

/-- Arguments of `AgentEyes.navigate`. -/
structure NavArgs where
  url : String
  timeoutMs : Option Nat := none
deriving DecidableEq, Repr

/-- `AgentEyes.navigate`: require an open page, require `args.url`, run the
SSRF guard, then `page.goto` (outcome `engineOk`).  Success runs the settle
delay, trace and `_afterAction`; an engine failure bumps the error count and
throws `NavigationTimeout` with the engine error as cause.  Validation and
guard failures are thrown before the instrumented try block.  The `parsed`
oracle is the platform URL parse of `args.url`; `dur` the measured
duration. -/
def navigate (s : EyesState) (options : GuardOptions) (args : Option NavArgs)
    (parsed : Option ParsedURL) (engineOk : Bool) (dur : Nat) :
    EyesState × Except EyesError Unit :=
  if !s.page then (s, .error notOpenedErr)
  else
    match args with
    | none => (s, .error (badInputErr "navigate.url is required"))
    | some a =>
      if a.url == "" then (s, .error (badInputErr "navigate.url is required"))
      else
        match guardNavigation a.url parsed options with
        | .error e => (s, .error e)
        | .ok url =>
          if engineOk then (afterAction s dur, .ok ())
          else
            (bumpErrors s,
             .error { code := .navigationTimeout,
                      message := "Navigation failed: " ++ url,
                      cause := some .engine })

/-- Truthiness of an optional string argument (`undefined` and `''` are
falsy in the JavaScript checks). -/
def truthyStr : Option String → Bool
  | none => false
  | some s => !(s == "")

/-- Arguments of `AgentEyes.wait` (`args.for` is modelled as `waitFor`). -/
structure WaitArgs where
  waitFor : Option String := none
  selector : Option String := none
  timeoutMs : Option Nat := none
deriving DecidableEq, Repr

/-- `AgentEyes.wait`: dispatch on `args.for`.  A missing selector or an
unknown mode throws `BadInput` inside the try block, so the catch bumps the
error count and rethrows it via `toEyesError` unchanged; engine failures are
wrapped as `Internal` (`emsg` is the engine error message). -/
def wait (s : EyesState) (args : WaitArgs) (engineOk : Bool) (emsg : String)
    (dur : Nat) : EyesState × Except EyesError Unit :=
  if !s.page then (s, .error notOpenedErr)
  else
    if args.waitFor == some "selector" then
      if !truthyStr args.selector then
        (bumpErrors s, .error (toEyesError (.inl (badInputErr "wait.selector is required"))))
      else if engineOk then (afterAction s dur, .ok ())
      else (bumpErrors s, .error (toEyesError (.inr emsg)))
    else if args.waitFor == some "networkidle" then
      if engineOk then (afterAction s dur, .ok ())
      else (bumpErrors s, .error (toEyesError (.inr emsg)))
    else if args.waitFor == some "timeout" then
      if engineOk then (afterAction s dur, .ok ())
      else (bumpErrors s, .error (toEyesError (.inr emsg)))
    else
      (bumpErrors s, .error (toEyesError (.inl (badInputErr "wait.for must be selector|networkidle|timeout"))))

/-- Arguments of `AgentEyes.click`. -/
structure ClickArgs where
  selector : Option String := none
  text : Option String := none
  nth : Option Nat := none
  timeoutMs : Option Nat := none
deriving DecidableEq, Repr

/-- `AgentEyes.click`: resolve a locator from `args.selector` (taking
precedence) or `args.text`; if neither is truthy a `BadInput` is thrown
inside the try block.  Every failure lands in the same catch: bump the error
count, compute a best-effort suggestion hint (only when `args.selector` is
truthy; the `suggestions` oracle is `_suggestSelectors` with its own
failures already mapped to `[]`), and throw `ElementNotFound` with the
caught error as cause.  `engineOk` is the outcome of the wait/scroll/click
engine calls. -/
def click (s : EyesState) (args : ClickArgs) (engineOk : Bool)
    (suggestions : List String) (dur : Nat) : EyesState × Except EyesError Unit :=
  if !s.page then (s, .error notOpenedErr)
  else
    let hint := if truthyStr args.selector && !suggestions.isEmpty then
        "Did you mean: " ++ String.intercalate ", " suggestions
      else ""
    if truthyStr args.selector || truthyStr args.text then
      if engineOk then (afterAction s dur, .ok ())
      else
        (bumpErrors s,
         .error { code := .elementNotFound, message := "Element not found for click",
                  hintStr := mkHint hint, cause := some .engine })
    else
      (bumpErrors s,
       .error { code := .elementNotFound, message := "Element not found for click",
                hintStr := mkHint hint, cause := some (.typed .badInput) })

/-- Arguments of `AgentEyes.type`. -/
structure TypeArgs where
  selector : Option String := none
  text : Option String := none
  delayMs : Option Nat := none
deriving DecidableEq, Repr

/-- `AgentEyes.type`: a missing selector throws `BadInput` before the try
block (no metrics change); otherwise locate, focus and type (outcome
`engineOk`); failures bump the error count and throw `ElementNotFound`. -/
def typeAction (s : EyesState) (args : TypeArgs) (engineOk : Bool) (dur : Nat) :
    EyesState × Except EyesError Unit :=
  if !s.page then (s, .error notOpenedErr)
  else if !truthyStr args.selector then (s, .error (badInputErr "type.selector is required"))
  else if engineOk then (afterAction s dur, .ok ())
  else
    (bumpErrors s,
     .error { code := .elementNotFound, message := "Failed to type into element",
              cause := some .engine })

/-- `AgentEyes.scroll`: no argument validation (a no-op scroll is fine);
engine failures bump the error count and are wrapped by `toEyesError`. -/
def scroll (s : EyesState) (engineOk : Bool) (emsg : String) (dur : Nat) :
    EyesState × Except EyesError Unit :=
  if !s.page then (s, .error notOpenedErr)
  else if engineOk then (afterAction s dur, .ok ())
  else (bumpErrors s, .error (toEyesError (.inr emsg)))

/-- `AgentEyes.keys`: `page.keyboard.press(args.press)`; engine failures
bump the error count and are wrapped by `toEyesError`. -/
def keys (s : EyesState) (engineOk : Bool) (emsg : String) (dur : Nat) :
    EyesState × Except EyesError Unit :=
  if !s.page then (s, .error notOpenedErr)
  else if engineOk then (afterAction s dur, .ok ())
  else (bumpErrors s, .error (toEyesError (.inr emsg)))

/-- `AgentEyes.exec`: evaluate the expression; engine failures bump the
error count and throw `ScriptError` with the engine error as cause. -/
def exec (s : EyesState) (engineOk : Bool) (dur : Nat) :
    EyesState × Except EyesError Unit :=
  if !s.page then (s, .error notOpenedErr)
  else if engineOk then (afterAction s dur, .ok ())
  else
    (bumpErrors s,
     .error { code := .scriptError, message := "Script execution failed",
              cause := some .engine })

/-- `AgentEyes.screenshot`: an engine capture failure rethrows via
`toEyesError` without touching the metrics; only success reaches
`_afterAction`. -/
def screenshot (s : EyesState) (engineOk : Bool) (emsg : String) (dur : Nat) :
    EyesState × Except EyesError Unit :=
  if !s.page then (s, .error notOpenedErr)
  else if engineOk then (afterAction s dur, .ok ())
  else (s, .error (toEyesError (.inr emsg)))

/-- The value returned by `AgentEyes.metrics()`. -/
structure MetricsView where
  actions : Nat
  avgDurationMs : Int
  errorRate : ℚ
deriving DecidableEq, Repr

/-- `AgentEyes.metrics()`: action count, `Math.round` of the average
duration, and `errors / actions`; both ratios fall back to 0 when the
action counter is 0. -/
def metrics (s : EyesState) : MetricsView :=
  { actions := s.metrics.actions,
    avgDurationMs :=
      if s.metrics.actions == 0 then 0
      else round ((s.metrics.totalDurationMs : ℚ) / (s.metrics.actions : ℚ)),
    errorRate :=
      if s.metrics.actions == 0 then 0
      else (s.metrics.errors : ℚ) / (s.metrics.actions : ℚ) }

end AgentEyes

/-! ## StepRunner (`src/runner.js`) -/

namespace EyesRunner

/-- One plan step: the action name and (of its argument record) the only
field the runner itself inspects, `args.for`, used by the fragility test.
The remaining arguments flow opaquely to the session and are folded into
the dispatch outcome oracle. -/
structure Step where
  action : String
  waitFor : Option String := none
deriving DecidableEq, Repr

/-- A plan as submitted to `EyesRunner.run`; `steps` is `none` when the
field is missing or not an array. -/
structure Plan where
  goal : String := ""
  steps : Option (List Step) := none
  abortOnError : Option Bool := none
  maxDurationMs : Option Nat := none

/-- The backoff slept before retry `i+1` in `EyesRunner._execute`:
`Math.min(2000, 300 * Math.pow(2, i)) + Math.floor(Math.random() * 100)`,
with the jitter draw passed in explicitly. -/
def backoffMs (i jitter : Nat) : Nat :=
  min 2000 (300 * 2 ^ i) + jitter

/-- `EyesRunner._execute` fragility test: `click`, or `wait` with
`args.for === 'selector'`. -/
def isFragile (step : Step) : Bool :=
  step.action == "click" || (step.action == "wait" && step.waitFor == some "selector")

/-- Observable outcome of one `_execute` call: the propagated result, how
many times `_dispatch` ran, and the total backoff sleep requested. -/
structure ExecOut where
  result : Except EyesError Unit
  dispatches : Nat
  sleepMs : Nat
deriving Repr

/-- The attempt loop of `EyesRunner._execute`: `out i` is what `_dispatch`
throws on attempt `i` (`none` = success), `jitter i` the random draw of
attempt `i`.  On a non-final failure the backoff wait (performed through
`eyes.wait({for:'timeout'})`, assumed to complete) is added and the loop
retries; on the final failure the error propagates through `toEyesError`. -/
def executeAttempts (out : Nat → Option (Sum EyesError String))
    (jitter : Nat → Nat) : Nat → Nat → ExecOut
  | 0, _ => { result := .ok (), dispatches := 0, sleepMs := 0 }
  | 1, i =>
    (match out i with
     | none => { result := .ok (), dispatches := 1, sleepMs := 0 }
     | some e =>
       { result := .error (toEyesError e), dispatches := 1, sleepMs := 0 })
  | n+2, i =>
    (match out i with
     | none => { result := .ok (), dispatches := 1, sleepMs := 0 }
     | some _ =>
       let r := executeAttempts out jitter (n+1) (i+1)
       { r with dispatches := r.dispatches + 1,
                sleepMs := r.sleepMs + backoffMs i (jitter i) })

/-- `EyesRunner._execute`: fragile steps get 3 attempts, all others 1. -/
def execute (step : Step) (out : Nat → Option (Sum EyesError String))
    (jitter : Nat → Nat) : ExecOut :=
  executeAttempts out jitter (if isFragile step then 3 else 1) 0

/-- `EyesRunner._errorInfo`: the error triple embedded in the report. -/
structure ErrInfo where
  code : ErrCode
  message : String
  hint : Option String
deriving DecidableEq, Repr

def errorInfo (e : EyesError) : ErrInfo :=
  { code := e.code, message := e.message, hint := e.hintStr }

/-- The budget check after each step:
`plan.maxDurationMs && Date.now() - started > plan.maxDurationMs` (a zero
budget is falsy and disables the check); `elapsed` is the wall-clock time
since `started` when step `i` finished. -/
def budgetExceeded (maxDurationMs : Option Nat) (elapsed : Nat) : Bool :=
  match maxDurationMs with
  | some m => !(m == 0) && m < elapsed
  | none => false

/-- The step loop of `EyesRunner.run`, returning the retained last error,
the log of `(step, attempt)` pairs that reached `_dispatch`, and the total
backoff sleep.  `outcome i a` is what `_dispatch` throws on attempt `a` of
step `i`; failures break the loop unless `abortOnError` is exactly `false`;
the budget check runs after every step. -/
def runLoop (outcome : Nat → Nat → Option (Sum EyesError String))
    (jitter : Nat → Nat → Nat) (elapsedAfter : Nat → Nat)
    (abortOnError : Option Bool) (maxDurationMs : Option Nat) :
    List Step → Nat → Option EyesError →
    Option EyesError × List (Nat × Nat) × Nat
  | [], _, lastError => (lastError, [], 0)
  | step :: rest, i, lastError =>
    let r := execute step (outcome i) (jitter i)
    let log := (List.range r.dispatches).map (fun a => (i, a))
    match r.result with
    | .ok _ =>
      if budgetExceeded maxDurationMs (elapsedAfter i) then (lastError, log, r.sleepMs)
      else
        let (le, l, sl) := runLoop outcome jitter elapsedAfter abortOnError maxDurationMs rest (i+1) lastError
        (le, log ++ l, r.sleepMs + sl)
    | .error e =>
      if abortOnError != some false then (some e, log, r.sleepMs)
      else if budgetExceeded maxDurationMs (elapsedAfter i) then (some e, log, r.sleepMs)
      else
        let (le, l, sl) := runLoop outcome jitter elapsedAfter abortOnError maxDurationMs rest (i+1) (some e)
        (le, log ++ l, r.sleepMs + sl)

/-- The report returned by `EyesRunner.run`; the artifact payloads are
abstract (`α` screenshot, `β` DOM snippet, `γ` state snapshot), each
best-effort: `none` is the `null`/`{}` fallback of the `.catch` clauses. -/
structure RunReport (α β γ : Type) where
  success : Bool
  traceId : String
  lastState : Option γ
  screenshot : Option α
  domSnippet : Option β
  error : Option ErrInfo

/-- `EyesRunner.run`: validate the plan (a missing step array or more than
50 steps throws `BadInput` — the model returns it as `.error` — before any
step is dispatched), then run the step loop, then collect the three
best-effort artifacts (oracles `shotRes`, `domRes`, `stateRes`) and build
the report.  Also returns the dispatch log and total backoff sleep. -/
def run (plan : Option Plan) (outcome : Nat → Nat → Option (Sum EyesError String))
    (jitter : Nat → Nat → Nat) (elapsedAfter : Nat → Nat)
    (started : Nat) (rand : String)
    (shotRes : Option α) (domRes : Option β) (stateRes : Option γ) :
    Except EyesError (RunReport α β γ) × List (Nat × Nat) × Nat :=
  match plan with
  | none => (.error (badInputErr "Runner requires steps[]"), [], 0)
  | some p =>
    match p.steps with
    | none => (.error (badInputErr "Runner requires steps[]"), [], 0)
    | some steps =>
      if 50 < steps.length then (.error (badInputErr "Too many steps (>50)"), [], 0)
      else
        let traceId := "eyes-run-" ++ toString started ++ "-" ++ rand
        let (lastError, log, sleep) :=
          runLoop outcome jitter elapsedAfter p.abortOnError p.maxDurationMs steps 0 none
        (.ok { success := lastError.isNone,
               traceId,
               lastState := stateRes,
               screenshot := shotRes,
               domSnippet := domRes,
               error := lastError.map errorInfo }, log, sleep)

end EyesRunner

/-! ## Artifacts: DOM serialization (`src/artifacts.js`, `serializeDOM`) -/

/-- A live DOM node as seen by the in-page walker: an element (nodeType 1,
with attributes, rendered `innerText` and child nodes), a text node
(nodeType 3, with `nodeValue`), or any other node kind (carrying its
`nodeName` and children). -/
inductive DomNode where
  | element (tagName : String) (attrs : List (String × String))
      (innerText : String) (children : List DomNode)
  | textNode (nodeValue : String)
  | other (nodeName : String) (children : List DomNode)

/-- `n.childNodes` of a live DOM node. -/
def DomNode.childNodes : DomNode → List DomNode
  | .element _ _ _ c => c
  | .textNode _ => []
  | .other _ c => c

/-- A node of the serialized tree built by `nodeInfo`:
`{ tag, attrs, text?, children }`. -/
inductive SerNode where
  | mk (tag : String) (attrs : List (String × String)) (text : Option String)
      (children : List SerNode)

def SerNode.tag : SerNode → String
  | .mk t _ _ _ => t

def SerNode.attrs : SerNode → List (String × String)
  | .mk _ a _ _ => a

def SerNode.text : SerNode → Option String
  | .mk _ _ x _ => x

def SerNode.children : SerNode → List SerNode
  | .mk _ _ _ c => c

/-- The child loop of `nodeInfo`: serialize each child in order with `f`,
push non-null results, and `break` as soon as the accumulated child count
exceeds 1000 (the check runs after each iteration). -/
def pushChildLoop (f : DomNode → Option SerNode) :
    List DomNode → List SerNode → List SerNode
  | [], acc => acc
  | c :: rest, acc =>
    let acc2 := match f c with
      | some ci => acc ++ [ci]
      | none => acc
    if 1000 < acc2.length then acc2 else pushChildLoop f rest acc2

/-- `nodeInfo(n, depth)` from `serializeDOM`: `null` when the depth exceeds
`maxDepth`; the tag is the lowercased `tagName` for elements and the
`nodeName` otherwise; attributes only for elements; in plaintext mode an
element carries `innerText.slice(0, 2000)`, otherwise a text node carries
`nodeValue.slice(0, 2000)`; children are enumerated only while
`depth < maxDepth`.  The extra fuel argument drives the recursion and is
always ample for the entry point used by `serializeDOM` (the depth guard
fires first), so it does not alter the source semantics. -/
def nodeInfo (plaintext : Bool) (maxDepth : Nat) :
    Nat → Nat → DomNode → Option SerNode
  | 0, _, _ => none
  | fuel+1, depth, n =>
    if maxDepth < depth then none
    else
      let tag := match n with
        | .element tagName _ _ _ => lowerString tagName
        | .textNode _ => "#text"
        | .other nodeName _ => nodeName
      let attrs := match n with
        | .element _ a _ _ => a
        | _ => []
      let text : Option String := match n, plaintext with
        | .element _ _ innerText _, true => some (innerText.take 2000)
        | .textNode v, false => some (v.take 2000)
        | _, _ => none
      let children :=
        if depth < maxDepth then
          pushChildLoop (nodeInfo plaintext maxDepth fuel (depth+1)) n.childNodes []
        else []
      some (.mk tag attrs text children)

/-- `serializeDOM(page, opts)`: clamp `opts.maxDepth ?? 4` to `[1, 10]`,
coerce `opts.plaintext` to a boolean, and serialize from
`document.documentElement` at depth 1. -/
def serializeDOM (root : DomNode) (maxDepthOpt : Option Int) (plaintext : Bool) :
    Option SerNode :=
  let maxDepth := (min (max (maxDepthOpt.getD 4) 1) 10).toNat
  nodeInfo plaintext maxDepth (maxDepth + 1) 1 root

/-! ## Visual comparator (`src/artifacts.js`, `diffDataURLs`) -/

/-- The sample grid of the diff loop: `y` from 0 below `h` stepping
`stride`, and for each such row `x` from 0 below `w` stepping `stride`. -/
def gridPoints (w h stride : Nat) : List (Nat × Nat) :=
  ((List.range h).filter (fun y => y % stride == 0)).flatMap
    (fun y => ((List.range w).filter (fun x => x % stride == 0)).map (fun x => (x, y)))

/-- Manhattan distance over the red/green/blue channels of the pixel at
`(x, y)` between the two `ImageData` arrays (index `(y*w + x) * 4`). -/
def pixelDelta (d1 d2 : Nat → Nat) (w : Nat) (p : Nat × Nat) : Nat :=
  let i := (p.2 * w + p.1) * 4
  Nat.dist (d1 i) (d2 i) + Nat.dist (d1 (i+1)) (d2 (i+1)) + Nat.dist (d1 (i+2)) (d2 (i+2))

/-- The core of the diff computation: count sampled pixels whose channel
distance exceeds 30, divide by the number of sampled pixels, and resolve 0
when no pixel was sampled. -/
def diffRatio (d1 d2 : Nat → Nat) (w h stride : Nat) : ℚ :=
  let pts := gridPoints w h stride
  let diff := (pts.filter (fun p => 30 < pixelDelta d1 d2 w p)).length
  let total := pts.length
  if total == 0 then 0 else (diff : ℚ) / (total : ℚ)

/-- A successfully decoded image: its intrinsic size and its rasterization
`raster w h` — the `ImageData` bytes after `drawImage` onto a `w × h`
canvas.  Rasterization is the browser engine and enters the model as this
function; it is deterministic, so drawing the same decoded image twice
yields the same bytes. -/
structure DecodedImage where
  width : Nat
  height : Nat
  raster : Nat → Nat → Nat → Nat

/-- `diffDataURLs(page, a, b, opts)`: clamp the stride and resize width,
then, in the page, load both images and on the second `onload` resize both
to width `w` (height scaled from image A, floored, at least 32; integer
arithmetic stands in for the float computation) and resolve the sampled
diff ratio.  The promise resolves only from the two `onload` handlers (or a
synchronous throw); there is no `onerror` handler, so when either image
fails to decode (`none`) the promise never settles and the call never
returns — modelled as `none`.  A resolved ratio is finite, so the outer
`Number.isFinite` fallback to 1 leaves it unchanged. -/
def diffDataURLs (imgA imgB : Option DecodedImage)
    (sampleStride resizeWidth : Nat) : Option ℚ :=
  let stride := max 1 sampleStride
  let w := max 32 resizeWidth
  match imgA, imgB with
  | some a, some b =>
    let h := max 32 (a.height * w / a.width)
    some (diffRatio (a.raster w h) (b.raster w h) w h stride)
  | _, _ => none

/-! ## Helper lemmas -/

theorem pushRing_eq_drop {α : Type _} (arr : List α) (item : α) (cap : Nat) :
    pushRing arr item cap = (arr ++ [item]).drop ((arr ++ [item]).length - cap) := by
  simp only [pushRing]
  split
  · rfl
  · next h =>
    rw [Nat.sub_eq_zero_of_le (Nat.le_of_not_lt h), List.drop_zero]

theorem pushRing_length {α : Type _} (arr : List α) (item : α) (cap : Nat) :
    (pushRing arr item cap).length = min (arr.length + 1) cap := by
  rw [pushRing_eq_drop]
  simp only [List.length_drop, List.length_append, List.length_cons, List.length_nil]
  omega

theorem foldl_pushRing_eq_drop {α : Type _} (cap : Nat) (xs : List α) :
    ∀ arr : List α, arr.length ≤ cap →
      List.foldl (fun a x => pushRing a x cap) arr xs
        = (arr ++ xs).drop ((arr ++ xs).length - cap) := by
  induction xs with
  | nil =>
    intro arr h
    simp [Nat.sub_eq_zero_of_le h]
  | cons x rest ih =>
    intro arr h
    rw [List.foldl_cons, ih (pushRing arr x cap) (by rw [pushRing_length]; omega),
      pushRing_eq_drop]
    have hk : (arr ++ [x]).length - cap ≤ (arr ++ [x]).length := Nat.sub_le _ _
    rw [← List.drop_append_of_le_length hk, List.drop_drop]
    have hl : (arr ++ [x]) ++ rest = arr ++ x :: rest := by simp
    rw [hl]
    congr 1
    simp only [List.length_drop, List.length_append, List.length_cons, List.length_nil]
    omega

theorem foldl_onConsole_ring (s : EyesState) (xs : List ConsoleRec) :
    (List.foldl AgentEyes.onConsole s xs).consoleRing
      = List.foldl (fun a x => pushRing a x 500) s.consoleRing xs := by
  induction xs generalizing s with
  | nil => rfl
  | cons x rest ih => rw [List.foldl_cons, List.foldl_cons, ih]; rfl

theorem foldl_onRequestFinished_ring (s : EyesState) (xs : List NetworkRec) :
    (List.foldl AgentEyes.onRequestFinished s xs).networkRing
      = List.foldl (fun a x => pushRing a x 1000) s.networkRing xs := by
  induction xs generalizing s with
  | nil => rfl
  | cons x rest ih => rw [List.foldl_cons, List.foldl_cons, ih]; rfl

/-! ## Claims -/

/-- C5: for every sequence of recorded events, the console and network ring
buffers never exceed their capacities (console 500, network 1000) and the
retained entries are exactly a suffix of the insertion sequence in original
order; in particular inserting 600 console records into the capacity-500
buffer leaves exactly the most recent 500, in original relative order. -/
theorem C5_ring_buffer_bounds :
    (∀ (s : EyesState) (rec : ConsoleRec),
        (AgentEyes.onConsole s rec).consoleRing.length ≤ 500) ∧
    (∀ (s : EyesState) (rec : NetworkRec),
        (AgentEyes.onRequestFinished s rec).networkRing.length ≤ 1000) ∧
    (∀ (s : EyesState) (url method : String) (ts : Nat),
        (AgentEyes.onRequestFailed s url method ts).networkRing.length ≤ 1000) ∧
    (∀ xs : List ConsoleRec,
        (List.foldl AgentEyes.onConsole {} xs).consoleRing
          = xs.drop (xs.length - 500)) ∧
    (∀ xs : List NetworkRec,
        (List.foldl AgentEyes.onRequestFinished {} xs).networkRing
          = xs.drop (xs.length - 1000)) ∧
    (∀ xs : List ConsoleRec, xs.length = 600 →
        (List.foldl AgentEyes.onConsole {} xs).consoleRing = xs.drop 100) := by
  refine ⟨?_, ?_, ?_, ?_, ?_, ?_⟩
  · intro s rec
    show (pushRing s.consoleRing rec 500).length ≤ 500
    rw [pushRing_length]; omega
  · intro s rec
    show (pushRing s.networkRing rec 1000).length ≤ 1000
    rw [pushRing_length]; omega
  · intro s url method ts
    show (pushRing s.networkRing _ 1000).length ≤ 1000
    rw [pushRing_length]; omega
  · intro xs
    rw [foldl_onConsole_ring, foldl_pushRing_eq_drop 500 xs [] (by simp)]
    simp
  · intro xs
    rw [foldl_onRequestFinished_ring, foldl_pushRing_eq_drop 1000 xs [] (by simp)]
    simp
  · intro xs hlen
    rw [foldl_onConsole_ring, foldl_pushRing_eq_drop 500 xs [] (by simp)]
    simp [hlen]

/-- C5 witness: a concrete sequence of 600 console records folded into a
fresh session leaves the 500 most recent, in order. -/
theorem C5_ring_buffer_bounds_witness :
    (List.foldl AgentEyes.onConsole {}
        ((List.range 600).map (fun i => ⟨"log", toString i, i⟩))).consoleRing
      = ((List.range 600).map (fun i => (⟨"log", toString i, i⟩ : ConsoleRec))).drop 100 :=
  C5_ring_buffer_bounds.2.2.2.2.2 _ (by simp)

/-- C2 counterexample: the hostname `fe81::1` lies inside the link-local
block `fe80::/10` (its first 16-bit group `0xfe81` has the same top ten
bits as `0xfe80`), so the claim requires `SecurityBlocked` under the
default policy — but `isPrivateHostname` only matches the literal leading
group `fe80:`, and `guardNavigation` authorizes `http://[fe81::1]/`. -/
theorem C2_counterexample :
    specLinkLocalGroup 0xfe81 = true ∧
    isPrivateHostname "[fe81::1]" = false ∧
    guardNavigation "http://[fe81::1]/"
        (some ⟨"http:", "[fe81::1]", "http://[fe81::1]/"⟩) {}
      = .ok "http://[fe81::1]/" := by
  refine ⟨by decide, by decide, ?_⟩
  rfl

/-- C2 (amended): under an `http` scheme and no allow-pattern, the guard
with `blockPrivateIPs` not disabled fails with `SecurityBlocked` exactly on
the hostnames matched by the literal `PRIVATE_CIDRS` patterns (all IPv4
loopback/link-local/RFC1918 prefixes, the exact host `::1`, the literal
leading IPv6 groups `fe80:`, `fc00:`, `fd00:` case-insensitively, and
`localhost` case-insensitively — not the full `fe80::/10` and `fc00::/7`
blocks), and authorizes any hostname when `blockPrivateIPs` is explicitly
disabled; the sample private hostnames are all matched. -/
theorem C2_private_hostname_guard (host href : String) :
    (guardNavigation href (some ⟨"http:", host, href⟩) {}
        = .error (securityBlockedErr ("Blocked private/loopback host: " ++ host))
      ↔ isPrivateHostname host = true) ∧
    (guardNavigation href (some ⟨"http:", host, href⟩) { blockPrivateIPs := some false }
        = .ok href) ∧
    (["10.0.0.1", "192.168.1.1", "127.0.0.1", "[::1]", "localhost", "LocalHost",
      "169.254.7.8", "172.16.0.1", "172.31.255.9", "fe80::1", "FC00::2", "fd00::3"].all
        (fun h => isPrivateHostname h) = true) := by
  refine ⟨?_, ?_, by decide⟩
  · by_cases hp : isPrivateHostname host
    · simp [guardNavigation, ensureValidUrl, hp, securityBlockedErr]
    · simp [guardNavigation, ensureValidUrl, hp]
  · simp [guardNavigation, ensureValidUrl]

theorem executeAttempts_dispatches_le
    (out : Nat → Option (Sum EyesError String)) (jitter : Nat → Nat) :
    ∀ n i, (EyesRunner.executeAttempts out jitter n i).dispatches ≤ n := by
  intro n
  induction n with
  | zero => intro i; exact Nat.le_refl _
  | succ m ih =>
    intro i
    cases h : out i with
    | none =>
      match m with
      | 0 => simp [EyesRunner.executeAttempts, h]
      | k+1 => simp [EyesRunner.executeAttempts, h]
    | some e =>
      match m, ih with
      | 0, _ => simp [EyesRunner.executeAttempts, h]
      | k+1, ih =>
        have hr := ih (i+1)
        simp only [EyesRunner.executeAttempts, h]
        omega

/-- C1 counterexample: `EyesRunner.run` does throw on plan-validation
failure — a missing plan (or, per `C7`, a missing step sequence or an
oversized plan) makes `run` raise `BadInput` instead of representing the
failure inside a returned report. -/
theorem C1_counterexample :
    (EyesRunner.run none (fun _ _ => none) (fun _ _ => 0) (fun _ => 0) 0 "a1b2c3"
        (none : Option Unit) (none : Option Unit) (none : Option Unit)).1
      = .error (badInputErr "Runner requires steps[]") := rfl

/-- C1 (amended): once a plan passes validation (a step sequence is present
with at most 50 steps), `run` never throws: it returns a report that embeds
the best-effort artifacts and state exactly as collected, with success=true
precisely when no error is recorded; and a failing step really is
represented inside that report — when the head step's execution fails under
the default abort policy, and when a middle step fails in continue-on-error
mode, the report carries success=false and that failure's
code/message/hint in its error field.  Plan-validation failures, by
contrast, are thrown. -/
theorem C1_run_reports_failures {α β γ : Type} :
    (∀ (goal : String) (steps : List EyesRunner.Step) (abortOnError : Option Bool)
        (maxDurationMs : Option Nat)
        (outcome : Nat → Nat → Option (Sum EyesError String))
        (jitter : Nat → Nat → Nat) (elapsedAfter : Nat → Nat)
        (started : Nat) (rand : String)
        (shotRes : Option α) (domRes : Option β) (stateRes : Option γ),
        steps.length ≤ 50 →
        ∃ report,
          (EyesRunner.run (some ⟨goal, some steps, abortOnError, maxDurationMs⟩)
              outcome jitter elapsedAfter started rand shotRes domRes stateRes).1
            = .ok report ∧
          report.screenshot = shotRes ∧
          report.domSnippet = domRes ∧
          report.lastState = stateRes ∧
          (report.success = true ↔ report.error = none)) ∧
    (∀ (step : EyesRunner.Step) (rest : List EyesRunner.Step) (goal : String)
        (abortOnError : Option Bool) (maxDurationMs : Option Nat)
        (outcome : Nat → Nat → Option (Sum EyesError String))
        (jitter : Nat → Nat → Nat) (elapsedAfter : Nat → Nat)
        (started : Nat) (rand : String)
        (shotRes : Option α) (domRes : Option β) (stateRes : Option γ)
        (e : EyesError),
        (step :: rest).length ≤ 50 →
        (EyesRunner.execute step (outcome 0) (jitter 0)).result = .error e →
        abortOnError ≠ some false →
        ∃ report,
          (EyesRunner.run (some ⟨goal, some (step :: rest), abortOnError, maxDurationMs⟩)
              outcome jitter elapsedAfter started rand shotRes domRes stateRes).1
            = .ok report ∧
          report.success = false ∧
          report.error = some (EyesRunner.errorInfo e)) ∧
    (∀ (s0 s1 s2 : EyesRunner.Step) (goal : String)
        (outcome : Nat → Nat → Option (Sum EyesError String))
        (jitter : Nat → Nat → Nat) (elapsedAfter : Nat → Nat)
        (started : Nat) (rand : String)
        (shotRes : Option α) (domRes : Option β) (stateRes : Option γ)
        (e : EyesError),
        (EyesRunner.execute s0 (outcome 0) (jitter 0)).result = .ok () →
        (EyesRunner.execute s1 (outcome 1) (jitter 1)).result = .error e →
        (EyesRunner.execute s2 (outcome 2) (jitter 2)).result = .ok () →
        ∃ report,
          (EyesRunner.run (some ⟨goal, some [s0, s1, s2], some false, none⟩)
              outcome jitter elapsedAfter started rand shotRes domRes stateRes).1
            = .ok report ∧
          report.success = false ∧
          report.error = some (EyesRunner.errorInfo e)) := by
  refine ⟨?_, ?_, ?_⟩
  · intro goal steps abortOnError maxDurationMs outcome jitter elapsedAfter started rand
      shotRes domRes stateRes hlen
    rcases hR : EyesRunner.runLoop outcome jitter elapsedAfter abortOnError maxDurationMs
        steps 0 none with ⟨lastError, log, sleep⟩
    simp only [EyesRunner.run, hR, if_neg (Nat.not_lt.mpr hlen)]
    refine ⟨_, rfl, rfl, rfl, rfl, ?_⟩
    cases lastError <;> simp
  · intro step rest goal abortOnError maxDurationMs outcome jitter elapsedAfter started rand
      shotRes domRes stateRes e hlen herr habort
    have hb : (abortOnError != some false) = true := by
      cases abortOnError with
      | none => rfl
      | some b => cases b with
        | false => exact absurd rfl habort
        | true => rfl
    simp only [EyesRunner.run, if_neg (Nat.not_lt.mpr hlen), EyesRunner.runLoop, herr, hb]
    exact ⟨_, rfl, rfl, rfl⟩
  · intro s0 s1 s2 goal outcome jitter elapsedAfter started rand shotRes domRes stateRes e
      h0 h1 h2
    have hv : ¬ 50 < ([s0, s1, s2] : List EyesRunner.Step).length := by simp
    simp only [EyesRunner.run, if_neg hv, EyesRunner.runLoop, h0, h1, h2,
      EyesRunner.budgetExceeded, bne_self_eq_false, Bool.false_eq_true, if_false]
    exact ⟨_, rfl, rfl, rfl⟩

/-- C1 witness: a one-step plan whose fragile step exhausts its three
attempts yields a returned report with the artifacts embedded, and that
report carries success=false with the wrapped engine failure in its error
field. -/
theorem C1_run_reports_failures_witness :
    (∃ report,
        (EyesRunner.run (some ⟨"goal", some [⟨"click", none⟩], none, none⟩)
            (fun _ _ => some (.inr "boom")) (fun _ _ => 0) (fun _ => 0) 0 "zz"
            (some 7) (some true) (some "state")).1
          = .ok report ∧
        report.screenshot = some 7 ∧
        report.domSnippet = some true ∧
        report.lastState = some "state" ∧
        (report.success = true ↔ report.error = none)) ∧
    (∃ report,
        (EyesRunner.run (some ⟨"goal", some [⟨"click", none⟩], none, none⟩)
            (fun _ _ => some (.inr "boom")) (fun _ _ => 0) (fun _ => 0) 0 "zz"
            (some 7) (some true) (some "state")).1
          = .ok report ∧
        report.success = false ∧
        report.error = some (EyesRunner.errorInfo (toEyesError (.inr "boom")))) :=
  ⟨C1_run_reports_failures.1 "goal" [⟨"click", none⟩] none none
      (fun _ _ => some (.inr "boom")) (fun _ _ => 0) (fun _ => 0) 0 "zz"
      (some 7) (some true) (some "state") (by decide),
   C1_run_reports_failures.2.1 ⟨"click", none⟩ [] "goal" none none
      (fun _ _ => some (.inr "boom")) (fun _ _ => 0) (fun _ => 0) 0 "zz"
      (some 7) (some true) (some "state") (toEyesError (.inr "boom"))
      (by decide) rfl (by simp)⟩

/-- C7: a plan whose step sequence is missing, or whose step count exceeds
50, is rejected as `BadInput` before any execution begins: no step reaches
`_dispatch` (empty dispatch log) and no backoff sleep happens. -/
theorem C7_plan_validation {α β γ : Type}
    (outcome : Nat → Nat → Option (Sum EyesError String))
    (jitter : Nat → Nat → Nat) (elapsedAfter : Nat → Nat)
    (started : Nat) (rand : String)
    (shotRes : Option α) (domRes : Option β) (stateRes : Option γ) :
    (∀ goal abortOnError maxDurationMs,
        EyesRunner.run (some ⟨goal, none, abortOnError, maxDurationMs⟩)
            outcome jitter elapsedAfter started rand shotRes domRes stateRes
          = (.error (badInputErr "Runner requires steps[]"), [], 0)) ∧
    (EyesRunner.run none outcome jitter elapsedAfter started rand shotRes domRes stateRes
        = (.error (badInputErr "Runner requires steps[]"), [], 0)) ∧
    (∀ goal steps abortOnError maxDurationMs, 50 < steps.length →
        EyesRunner.run (some ⟨goal, some steps, abortOnError, maxDurationMs⟩)
            outcome jitter elapsedAfter started rand shotRes domRes stateRes
          = (.error (badInputErr "Too many steps (>50)"), [], 0)) := by
  refine ⟨fun _ _ _ => rfl, rfl, fun goal steps a b h => ?_⟩
  simp only [EyesRunner.run, if_pos h]

/-- C7 witness: a 51-step plan is rejected with no dispatch. -/
theorem C7_plan_validation_witness :
    EyesRunner.run (some ⟨"g", some (List.replicate 51 ⟨"click", none⟩), none, none⟩)
        (fun _ _ => none) (fun _ _ => 0) (fun _ => 0) 0 "zz"
        (none : Option Unit) (none : Option Unit) (none : Option Unit)
      = (.error (badInputErr "Too many steps (>50)"), [], 0) :=
  (C7_plan_validation (fun _ _ => none) (fun _ _ => 0) (fun _ => 0) 0 "zz"
      none none none).2.2 "g" (List.replicate 51 ⟨"click", none⟩) none none (by simp)

/-- C6: a fragile step (`click`, or `wait` with `for = 'selector'`) gets up
to 3 dispatch attempts and every other step exactly 1; each failed
non-final attempt adds a `min(2000, 300·2^i) + jitter` backoff; a fragile
step that fails twice and succeeds on the third attempt ends in success
with exactly `900 + jitter(0) + jitter(1)` ms of backoff, hence at least
900 ms before jitter. -/
theorem C6_fragile_retry :
    (∀ (step : EyesRunner.Step) (out : Nat → Option (Sum EyesError String))
        (jitter : Nat → Nat),
        EyesRunner.isFragile step = false →
        (EyesRunner.execute step out jitter).dispatches = 1) ∧
    (∀ (step : EyesRunner.Step) (out : Nat → Option (Sum EyesError String))
        (jitter : Nat → Nat),
        (EyesRunner.execute step out jitter).dispatches ≤ 3) ∧
    (∀ (jitter : Nat → Nat) (e : Sum EyesError String),
        (EyesRunner.execute ⟨"click", none⟩ (fun _ => some e) jitter).dispatches = 3 ∧
        (EyesRunner.execute ⟨"click", none⟩ (fun _ => some e) jitter).result
          = .error (toEyesError e)) ∧
    (∀ (jitter : Nat → Nat) (e : Sum EyesError String),
        (EyesRunner.execute ⟨"click", none⟩
            (fun i => if i < 2 then some e else none) jitter).result = .ok () ∧
        (EyesRunner.execute ⟨"click", none⟩
            (fun i => if i < 2 then some e else none) jitter).sleepMs
          = EyesRunner.backoffMs 1 (jitter 1) + EyesRunner.backoffMs 0 (jitter 0) ∧
        (EyesRunner.execute ⟨"click", none⟩
            (fun i => if i < 2 then some e else none) jitter).sleepMs
          = 900 + (jitter 1 + jitter 0) ∧
        900 ≤ (EyesRunner.execute ⟨"click", none⟩
            (fun i => if i < 2 then some e else none) jitter).sleepMs) := by
  refine ⟨?_, ?_, ?_, ?_⟩
  · intro step out jitter h
    simp only [EyesRunner.execute, h]
    cases hout : out 0 <;> simp [EyesRunner.executeAttempts, hout]
  · intro step out jitter
    by_cases h : EyesRunner.isFragile step
    · simpa [EyesRunner.execute, h] using executeAttempts_dispatches_le out jitter 3 0
    · cases hout : out 0 <;>
        simp [EyesRunner.execute, EyesRunner.executeAttempts, h, hout]
  · intro jitter e
    constructor <;> rfl
  · intro jitter e
    refine ⟨rfl, ?_, ?_, ?_⟩ <;>
      simp [EyesRunner.execute, EyesRunner.isFragile, EyesRunner.executeAttempts,
        EyesRunner.backoffMs] <;> omega

/-- C6 witness: a non-fragile step dispatches exactly once, and the
fail-fail-succeed scenario sleeps at least 900 ms. -/
theorem C6_fragile_retry_witness :
    (EyesRunner.execute ⟨"navigate", none⟩ (fun _ => none) (fun _ => 0)).dispatches = 1 ∧
    900 ≤ (EyesRunner.execute ⟨"click", none⟩
        (fun i => if i < 2 then some (.inr "boom") else none) (fun _ => 0)).sleepMs :=
  ⟨C6_fragile_retry.1 ⟨"navigate", none⟩ (fun _ => none) (fun _ => 0) (by decide),
   (C6_fragile_retry.2.2.2 (fun _ => 0) (.inr "boom")).2.2.2⟩

/-- C8: closing a never-opened session is a no-op (`close` catches every
engine error, so it is total and never throws), `close` is idempotent, and
every primitive action invoked while the page handle is null fails fast
with the dedicated `Internal` "Eyes not opened" error, leaving the session
state untouched — never a null-reference fault. -/
theorem C8_session_lifecycle :
    (∀ (cr : List ConsoleRec) (nr : List NetworkRec) (m : Metrics),
        AgentEyes.close ⟨false, false, false, false, cr, nr, m⟩
          = ⟨false, false, false, false, cr, nr, m⟩) ∧
    (∀ s : EyesState, AgentEyes.close (AgentEyes.close s) = AgentEyes.close s) ∧
    (∀ (br ctx fi : Bool) (cr : List ConsoleRec) (nr : List NetworkRec) (m : Metrics)
        (options : GuardOptions) (nargs : Option AgentEyes.NavArgs)
        (parsed : Option ParsedURL) (engineOk : Bool) (dur : Nat)
        (wargs : AgentEyes.WaitArgs) (emsg : String)
        (cargs : AgentEyes.ClickArgs) (sugg : List String)
        (targs : AgentEyes.TypeArgs),
        AgentEyes.navigate ⟨br, ctx, false, fi, cr, nr, m⟩ options nargs parsed engineOk dur
            = (⟨br, ctx, false, fi, cr, nr, m⟩, .error AgentEyes.notOpenedErr) ∧
        AgentEyes.wait ⟨br, ctx, false, fi, cr, nr, m⟩ wargs engineOk emsg dur
            = (⟨br, ctx, false, fi, cr, nr, m⟩, .error AgentEyes.notOpenedErr) ∧
        AgentEyes.click ⟨br, ctx, false, fi, cr, nr, m⟩ cargs engineOk sugg dur
            = (⟨br, ctx, false, fi, cr, nr, m⟩, .error AgentEyes.notOpenedErr) ∧
        AgentEyes.typeAction ⟨br, ctx, false, fi, cr, nr, m⟩ targs engineOk dur
            = (⟨br, ctx, false, fi, cr, nr, m⟩, .error AgentEyes.notOpenedErr) ∧
        AgentEyes.scroll ⟨br, ctx, false, fi, cr, nr, m⟩ engineOk emsg dur
            = (⟨br, ctx, false, fi, cr, nr, m⟩, .error AgentEyes.notOpenedErr) ∧
        AgentEyes.keys ⟨br, ctx, false, fi, cr, nr, m⟩ engineOk emsg dur
            = (⟨br, ctx, false, fi, cr, nr, m⟩, .error AgentEyes.notOpenedErr) ∧
        AgentEyes.exec ⟨br, ctx, false, fi, cr, nr, m⟩ engineOk dur
            = (⟨br, ctx, false, fi, cr, nr, m⟩, .error AgentEyes.notOpenedErr) ∧
        AgentEyes.screenshot ⟨br, ctx, false, fi, cr, nr, m⟩ engineOk emsg dur
            = (⟨br, ctx, false, fi, cr, nr, m⟩, .error AgentEyes.notOpenedErr)) :=
  ⟨fun _ _ _ => rfl, fun _ => rfl,
   by intros; exact ⟨rfl, rfl, rfl, rfl, rfl, rfl, rfl, rfl⟩⟩

/-- C3 counterexample: on an open session, `navigate` to a blocked private
host fails with `SecurityBlocked` yet leaves the metrics accumulator
completely untouched — a failed primitive action invocation with no metrics
update at all (the guard throws before the instrumented try block). -/
theorem C3_counterexample :
    AgentEyes.navigate ⟨false, false, true, false, [], [], ⟨0, 0, 0⟩⟩ {}
        (some ⟨"http://localhost/", none⟩)
        (some ⟨"http:", "localhost", "http://localhost/"⟩) true 5
      = (⟨false, false, true, false, [], [], ⟨0, 0, 0⟩⟩,
         .error (securityBlockedErr "Blocked private/loopback host: localhost")) := by
  rfl

/-- C3 (amended): `metrics()` reports the action counter, `errors/actions`
and the rounded average, both ratios 0 while the action counter is 0; a
successful action updates the accumulator exactly once (action count and
total duration), and a failure raised inside an action's instrumented body
updates it exactly once (error count) — but failures thrown before the
instrumented body (navigate's missing/invalid/guard-blocked URL, type's
missing selector) and screenshot capture failures update nothing at all,
so the action counter does not count failed actions. -/
theorem C3_metrics_discipline (br ctx fi : Bool) (cr : List ConsoleRec)
    (nr : List NetworkRec) (m : Metrics) (dur : Nat) (emsg : String)
    (sugg : List String) :
    (∀ s : EyesState, s.metrics.actions = 0 →
        (AgentEyes.metrics s).errorRate = 0 ∧ (AgentEyes.metrics s).avgDurationMs = 0) ∧
    (∀ s : EyesState, s.metrics.actions ≠ 0 →
        (AgentEyes.metrics s).errorRate
            = (s.metrics.errors : ℚ) / (s.metrics.actions : ℚ) ∧
        (AgentEyes.metrics s).actions = s.metrics.actions) ∧
    -- successes: action count and duration bumped exactly once
    ((AgentEyes.click ⟨br, ctx, true, fi, cr, nr, m⟩ ⟨some "q", none, none, none⟩ true sugg dur).1.metrics
        = ⟨m.actions + 1, m.totalDurationMs + dur, m.errors⟩) ∧
    ((AgentEyes.wait ⟨br, ctx, true, fi, cr, nr, m⟩ ⟨some "timeout", none, none⟩ true emsg dur).1.metrics
        = ⟨m.actions + 1, m.totalDurationMs + dur, m.errors⟩) ∧
    ((AgentEyes.typeAction ⟨br, ctx, true, fi, cr, nr, m⟩ ⟨some "q", some "hi", none⟩ true dur).1.metrics
        = ⟨m.actions + 1, m.totalDurationMs + dur, m.errors⟩) ∧
    ((AgentEyes.scroll ⟨br, ctx, true, fi, cr, nr, m⟩ true emsg dur).1.metrics
        = ⟨m.actions + 1, m.totalDurationMs + dur, m.errors⟩) ∧
    ((AgentEyes.keys ⟨br, ctx, true, fi, cr, nr, m⟩ true emsg dur).1.metrics
        = ⟨m.actions + 1, m.totalDurationMs + dur, m.errors⟩) ∧
    ((AgentEyes.exec ⟨br, ctx, true, fi, cr, nr, m⟩ true dur).1.metrics
        = ⟨m.actions + 1, m.totalDurationMs + dur, m.errors⟩) ∧
    ((AgentEyes.navigate ⟨br, ctx, true, fi, cr, nr, m⟩ {}
          (some ⟨"http://example.com/", none⟩)
          (some ⟨"http:", "example.com", "http://example.com/"⟩) true dur).1.metrics
        = ⟨m.actions + 1, m.totalDurationMs + dur, m.errors⟩) ∧
    -- in-body failures: error count bumped exactly once
    ((AgentEyes.click ⟨br, ctx, true, fi, cr, nr, m⟩ ⟨some "q", none, none, none⟩ false sugg dur).1.metrics
        = ⟨m.actions, m.totalDurationMs, m.errors + 1⟩) ∧
    ((AgentEyes.wait ⟨br, ctx, true, fi, cr, nr, m⟩ ⟨some "selector", some "q", none⟩ false emsg dur).1.metrics
        = ⟨m.actions, m.totalDurationMs, m.errors + 1⟩) ∧
    ((AgentEyes.typeAction ⟨br, ctx, true, fi, cr, nr, m⟩ ⟨some "q", some "hi", none⟩ false dur).1.metrics
        = ⟨m.actions, m.totalDurationMs, m.errors + 1⟩) ∧
    ((AgentEyes.scroll ⟨br, ctx, true, fi, cr, nr, m⟩ false emsg dur).1.metrics
        = ⟨m.actions, m.totalDurationMs, m.errors + 1⟩) ∧
    ((AgentEyes.keys ⟨br, ctx, true, fi, cr, nr, m⟩ false emsg dur).1.metrics
        = ⟨m.actions, m.totalDurationMs, m.errors + 1⟩) ∧
    ((AgentEyes.exec ⟨br, ctx, true, fi, cr, nr, m⟩ false dur).1.metrics
        = ⟨m.actions, m.totalDurationMs, m.errors + 1⟩) ∧
    ((AgentEyes.navigate ⟨br, ctx, true, fi, cr, nr, m⟩ {}
          (some ⟨"http://example.com/", none⟩)
          (some ⟨"http:", "example.com", "http://example.com/"⟩) false dur).1.metrics
        = ⟨m.actions, m.totalDurationMs, m.errors + 1⟩) ∧
    -- validation/guard failures thrown before the try block: no update
    ((AgentEyes.navigate ⟨br, ctx, true, fi, cr, nr, m⟩ {} none none true dur).1.metrics = m) ∧
    ((AgentEyes.navigate ⟨br, ctx, true, fi, cr, nr, m⟩ {}
          (some ⟨"not a url", none⟩) none true dur).1.metrics = m) ∧
    ((AgentEyes.typeAction ⟨br, ctx, true, fi, cr, nr, m⟩ ⟨none, some "hi", none⟩ true dur).1.metrics = m) ∧
    -- screenshot capture failure: rethrown without any metrics update
    ((AgentEyes.screenshot ⟨br, ctx, true, fi, cr, nr, m⟩ false emsg dur).1.metrics = m) := by
  refine ⟨?_, ?_, rfl, rfl, rfl, rfl, rfl, rfl, ?_, rfl, rfl, rfl, rfl, rfl, rfl, ?_, rfl, ?_, rfl, rfl⟩
  · intro s h
    constructor <;> simp [AgentEyes.metrics, h]
  · intro s h
    constructor <;> simp [AgentEyes.metrics, h]
  · rfl
  · rfl
  · rfl

/-- C3 witness: `metrics()` on a session with 3 recorded errors but a zero
action counter reports error rate 0; with 4 actions and 1 error it reports
1/4. -/
theorem C3_metrics_discipline_witness :
    (AgentEyes.metrics ⟨false, false, true, false, [], [], ⟨0, 0, 3⟩⟩).errorRate = 0 ∧
    (AgentEyes.metrics ⟨false, false, true, false, [], [], ⟨4, 10, 1⟩⟩).errorRate
      = ((1 : Nat) : ℚ) / ((4 : Nat) : ℚ) := by
  constructor
  · exact ((C3_metrics_discipline false false false [] [] ⟨0, 0, 0⟩ 0 "" []).1 _ rfl).1
  · exact ((C3_metrics_discipline false false false [] [] ⟨0, 0, 0⟩ 0 "" []).2.1 _
      (by decide)).1

/-- C4 counterexample: a click supplying BOTH selector and text succeeds
(selector takes precedence) instead of failing with `BadInput`; a click
supplying NEITHER fails with `ElementNotFound` (the internal `BadInput` is
only attached as its cause), not with a surfaced `BadInput`. -/
theorem C4_counterexample :
    ((AgentEyes.click ⟨false, false, true, false, [], [], ⟨0, 0, 0⟩⟩
        ⟨some "a", some "b", none, none⟩ true [] 7).2 = .ok ()) ∧
    ((AgentEyes.click ⟨false, false, true, false, [], [], ⟨0, 0, 0⟩⟩
        ⟨none, none, none, none⟩ true [] 7).2
      = .error ⟨.elementNotFound, "Element not found for click", none,
                some (.typed .badInput)⟩) := by
  constructor <;> rfl

/-- C4 (amended): click requires at least one truthy locator argument: a
call supplying neither selector nor text bumps the error count and fails
with `ElementNotFound` carrying the `BadInput` as cause and no hint; a call
with a truthy selector proceeds through the selector locator (any `text`
argument is ignored) and succeeds whenever the engine interaction does. -/
theorem C4_click_locator_requirement (br ctx fi : Bool) (cr : List ConsoleRec)
    (nr : List NetworkRec) (m : Metrics) (sel txt : Option String)
    (nth tmo : Option Nat) (engineOk : Bool) (sugg : List String) (dur : Nat) :
    (AgentEyes.truthyStr sel = false → AgentEyes.truthyStr txt = false →
        AgentEyes.click ⟨br, ctx, true, fi, cr, nr, m⟩ ⟨sel, txt, nth, tmo⟩ engineOk sugg dur
          = (AgentEyes.bumpErrors ⟨br, ctx, true, fi, cr, nr, m⟩,
             .error ⟨.elementNotFound, "Element not found for click", none,
                     some (.typed .badInput)⟩)) ∧
    (AgentEyes.truthyStr sel = true →
        AgentEyes.click ⟨br, ctx, true, fi, cr, nr, m⟩ ⟨sel, txt, nth, tmo⟩ true sugg dur
          = (AgentEyes.afterAction ⟨br, ctx, true, fi, cr, nr, m⟩ dur, .ok ())) := by
  have hm : mkHint "" = none := rfl
  constructor
  · intro h1 h2
    simp [AgentEyes.click, h1, h2, hm]
  · intro h1
    simp [AgentEyes.click, h1]

/-- C4 witness: the neither-argument call at a concrete open session. -/
theorem C4_click_locator_requirement_witness :
    AgentEyes.click ⟨false, false, true, false, [], [], ⟨0, 0, 0⟩⟩
        ⟨none, none, none, none⟩ true [] 7
      = (AgentEyes.bumpErrors ⟨false, false, true, false, [], [], ⟨0, 0, 0⟩⟩,
         .error ⟨.elementNotFound, "Element not found for click", none,
                 some (.typed .badInput)⟩) :=
  (C4_click_locator_requirement false false false [] [] ⟨0, 0, 0⟩
      none none none none true [] 7).1 rfl rfl

theorem pushChildLoop_length_le (f : DomNode → Option SerNode) :
    ∀ (cs : List DomNode) (acc : List SerNode), acc.length ≤ 1000 →
      (pushChildLoop f cs acc).length ≤ 1001 := by
  intro cs
  induction cs with
  | nil =>
    intro acc h
    simp only [pushChildLoop]
    omega
  | cons c rest ih =>
    intro acc h
    simp only [pushChildLoop]
    cases hf : f c with
    | none =>
      simp only
      split
      · omega
      · exact ih acc h
    | some ci =>
      simp only
      split
      · next hgt => simp only [List.length_append, List.length_cons, List.length_nil]; omega
      · next hle =>
        refine ih (acc ++ [ci]) ?_
        simp only [List.length_append, List.length_cons, List.length_nil] at hle ⊢
        omega

set_option maxRecDepth 100000 in
/-- C9 counterexample: an element with 1002 children serializes (plaintext,
depth 2) to a node with 1001 retained children — the per-node child cap is
1001, not 1000, because the loop breaks only after the pushed count already
exceeds 1000. -/
theorem C9_counterexample :
    (serializeDOM
        (.element "div" [] "" (List.replicate 1002 (.textNode "x")))
        (some 2) true).map (fun s => s.children.length) = some 1001 := by
  rfl

theorem nodeInfo_elem_succ (p : Bool) (maxDepth fuel depth : Nat)
    (tagName : String) (attrs : List (String × String)) (innerText : String)
    (children : List DomNode) :
    nodeInfo p maxDepth (fuel+1) depth (.element tagName attrs innerText children)
      = if maxDepth < depth then none
        else some (.mk (lowerString tagName) attrs
              (if p then some (innerText.take 2000) else none)
              (if depth < maxDepth then
                 pushChildLoop (nodeInfo p maxDepth fuel (depth+1)) children []
               else [])) := by
  cases p <;> rfl

/-- C9 (amended): `serializeDOM` clamps the requested depth to [1, 10]
(requesting any depth is the same as requesting its clamp; 0 behaves as 1,
99 as 10, a missing depth as 4); in plaintext mode every serialized element
node carries its rendered inner text truncated to 2000 characters; and the
number of children enumerated per node is capped at 1001 — the loop stops
only after the child count exceeds 1000. -/
theorem C9_dom_snapshot :
    (∀ (root : DomNode) (p : Bool) (d : Int),
        serializeDOM root (some d) p
          = serializeDOM root (some (min (max d 1) 10)) p) ∧
    (∀ (root : DomNode) (p : Bool),
        serializeDOM root (some 0) p = serializeDOM root (some 1) p) ∧
    (∀ (root : DomNode) (p : Bool),
        serializeDOM root (some 99) p = serializeDOM root (some 10) p) ∧
    (∀ (root : DomNode) (p : Bool),
        serializeDOM root none p = serializeDOM root (some 4) p) ∧
    (∀ (tagName : String) (attrs : List (String × String)) (innerText : String)
        (children : List DomNode) (dOpt : Option Int),
        (serializeDOM (.element tagName attrs innerText children) dOpt true).map
            SerNode.text
          = some (some (innerText.take 2000))) ∧
    (∀ (f : DomNode → Option SerNode) (cs : List DomNode),
        (pushChildLoop f cs []).length ≤ 1001) := by
  refine ⟨?_, ?_, ?_, ?_, ?_, ?_⟩
  · intro root p d
    have h : min (max (min (max d 1) 10) 1) 10 = min (max d 1) 10 := by omega
    simp only [serializeDOM, Option.getD_some]
    rw [h]
  · intro root p
    have h0 : (min (max (0 : Int) 1) 10).toNat = 1 := by omega
    have h1 : (min (max (1 : Int) 1) 10).toNat = 1 := by omega
    simp only [serializeDOM, Option.getD_some, h0, h1]
  · intro root p
    have h0 : (min (max (99 : Int) 1) 10).toNat = 10 := by omega
    have h1 : (min (max (10 : Int) 1) 10).toNat = 10 := by omega
    simp only [serializeDOM, Option.getD_some, h0, h1]
  · intro root p
    simp only [serializeDOM, Option.getD_none, Option.getD_some]
  · intro tagName attrs innerText children dOpt
    obtain ⟨k, hk⟩ : ∃ k, (min (max (dOpt.getD 4) 1) 10).toNat = k + 1 := by
      refine ⟨(min (max (dOpt.getD 4) 1) 10).toNat - 1, ?_⟩
      have h1 : (1 : Int) ≤ max (dOpt.getD 4) 1 := le_max_right _ _
      omega
    simp only [serializeDOM, hk, nodeInfo_elem_succ]
    simp [SerNode.text]
  · intro f cs
    exact pushChildLoop_length_le f cs [] (by simp)

theorem diffRatio_bounds (d1 d2 : Nat → Nat) (w h stride : Nat) :
    0 ≤ diffRatio d1 d2 w h stride ∧ diffRatio d1 d2 w h stride ≤ 1 := by
  simp only [diffRatio]
  split
  · exact ⟨le_refl 0, by norm_num⟩
  · next htot =>
    have hne : (gridPoints w h stride).length ≠ 0 := by simpa using htot
    have hpos : (0 : ℚ) < ((gridPoints w h stride).length : ℚ) := by
      exact_mod_cast Nat.pos_of_ne_zero hne
    refine ⟨div_nonneg (by positivity) (le_of_lt hpos), ?_⟩
    rw [div_le_one hpos]
    exact_mod_cast List.length_filter_le _ _

/-- C10: the diff computation itself satisfies the claimed algebra — a
decoded image against itself yields ratio 0, and every resolved ratio lies
in [0, 1] — but when either image fails to decode the page-side promise has
no `onerror` handler and never resolves (`none`), so `diffDataURLs` never
returns at all instead of returning 1 as the specification states. -/
theorem C10_diff_pipeline :
    (∀ (b : Option DecodedImage) (stride w : Nat),
        diffDataURLs none b stride w = none ∧ diffDataURLs b none stride w = none) ∧
    (∀ (a : DecodedImage) (stride w : Nat),
        diffDataURLs (some a) (some a) stride w = some 0) ∧
    (∀ (a b : DecodedImage) (stride w : Nat) (r : ℚ),
        diffDataURLs (some a) (some b) stride w = some r → 0 ≤ r ∧ r ≤ 1) := by
  refine ⟨?_, ?_, ?_⟩
  · intro b stride w
    exact ⟨by cases b <;> rfl, by cases b <;> rfl⟩
  · intro a stride w
    simp [diffDataURLs, diffRatio, pixelDelta, Nat.dist_self]
  · intro a b stride w r h
    simp only [diffDataURLs, Option.some.injEq] at h
    rw [← h]
    exact diffRatio_bounds _ _ _ _ _

/-- C10 witness: a concrete decoded image against itself resolves ratio 0,
which the range conjunct then bounds inside [0, 1]. -/
theorem C10_diff_pipeline_witness :
    diffDataURLs (some ⟨32, 32, fun _ _ _ => 0⟩) (some ⟨32, 32, fun _ _ _ => 0⟩) 2 32
      = some 0 ∧ ((0 : ℚ) ≤ 0 ∧ (0 : ℚ) ≤ 1) :=
  ⟨C10_diff_pipeline.2.1 ⟨32, 32, fun _ _ _ => 0⟩ 2 32,
   C10_diff_pipeline.2.2 ⟨32, 32, fun _ _ _ => 0⟩ ⟨32, 32, fun _ _ _ => 0⟩ 2 32 0
     (C10_diff_pipeline.2.1 ⟨32, 32, fun _ _ _ => 0⟩ 2 32)⟩

/-- C2 witness: the sample private hostname `10.0.0.1` is blocked under the
default policy. -/
theorem C2_private_hostname_guard_witness :
    guardNavigation "http://10.0.0.1/" (some ⟨"http:", "10.0.0.1", "http://10.0.0.1/"⟩) {}
      = .error (securityBlockedErr "Blocked private/loopback host: 10.0.0.1") :=
  (C2_private_hostname_guard "10.0.0.1" "http://10.0.0.1/").1.mpr (by rfl)
